import Mathlib

/-!
Verification development for the QCSuper transport/framing layer
(src/inputs/usb_modem_pyusb.py and src/main.py).

The HDLC framing helpers (hdlc_encapsulate, hdlc_decapsulate, TRAILER_CHAR,
InvalidFrameError) live in src/inputs/_hdlc_mixin.py, which is not part of the
available sources; they are modelled from the specification (section 4.1).
The read loop, send_request, the connector constructor and the device-selection
branches of main() are embedded directly from the available Python sources.

Bytes are modelled as natural numbers (the values read from the USB endpoint
are in 0..255; none of the framing operations below depends on the bound).
-/

namespace QCSuper

/-- Modelled from the spec: the fixed trailer byte terminating every frame
(HdlcMixin.TRAILER_CHAR, from the missing src/inputs/_hdlc_mixin.py).
The concrete value is the standard HDLC frame delimiter. -/
def TRAILER_CHAR : Nat := 0x7e

/-- Modelled from the spec: the fixed escape byte of the framing protocol
(from the missing src/inputs/_hdlc_mixin.py). -/
def ESCAPE_CHAR : Nat := 0x7d

/-- Modelled from the spec: the fixed mask XOR-ed onto an escaped byte
(from the missing src/inputs/_hdlc_mixin.py). -/
def ESCAPE_MASK : Nat := 0x20

/-- Modelled from the spec: the escaping pass of `encode` — every occurrence
of the trailer byte or the escape byte is replaced by the escape byte followed
by the original value XOR-ed with the fixed mask. -/
def hdlc_escape : List Nat → List Nat
  | [] => []
  | b :: rest =>
    if b = TRAILER_CHAR ∨ b = ESCAPE_CHAR then
      ESCAPE_CHAR :: Nat.xor b ESCAPE_MASK :: hdlc_escape rest
    else
      b :: hdlc_escape rest

/-- Modelled from the spec: `hdlc_encapsulate(data)` escapes `data` and
appends the single unescaped trailer byte. -/
def hdlc_encapsulate (data : List Nat) : List Nat :=
  hdlc_escape data ++ [TRAILER_CHAR]

/-- Modelled from the spec: reverse the escaping over the frame body,
also reporting whether every escape sequence was well formed.  A dangling
escape byte at the end of the body is the malformed case; best effort drops
it. -/
def hdlc_unescape_checked : List Nat → List Nat × Bool
  | [] => ([], true)
  | [b] =>
    if b = ESCAPE_CHAR then ([], false) else ([b], true)
  | b :: c :: rest =>
    if b = ESCAPE_CHAR then
      let p := hdlc_unescape_checked rest
      (Nat.xor c ESCAPE_MASK :: p.1, p.2)
    else
      let p := hdlc_unescape_checked (c :: rest)
      (b :: p.1, p.2)

/-- Outcome of `hdlc_decapsulate`: a decoded packet (first byte is the type,
the rest the payload), or the raised `InvalidFrameError`. -/
inductive HdlcDecodeResult where
  | packet (type_id : Nat) (payload : List Nat)
  | invalidFrameError
deriving DecidableEq, Repr

/-- Modelled from the spec: `hdlc_decapsulate(payload, raise_on_invalid_frame)`
reverses the escaping over all bytes preceding the final trailer byte and
splits the first unescaped byte as the type and the remainder as the payload.
The validation checks (well-formed escape sequences, non-empty result) raise
`InvalidFrameError` only when `raise_on_invalid_frame` is true; otherwise the
best-effort decode is returned (for the empty best-effort result the model
returns the packet with type 0 and empty payload). -/
def hdlc_decapsulate (payload : List Nat) (raise_on_invalid_frame : Bool) :
    HdlcDecodeResult :=
  let p := hdlc_unescape_checked payload.dropLast
  match p.1 with
  | [] =>
    if raise_on_invalid_frame then HdlcDecodeResult.invalidFrameError
    else HdlcDecodeResult.packet 0 []
  | t :: rest =>
    if raise_on_invalid_frame && !p.2 then HdlcDecodeResult.invalidFrameError
    else HdlcDecodeResult.packet t rest

theorem xor_mask_cancel (b : Nat) : Nat.xor (Nat.xor b ESCAPE_MASK) ESCAPE_MASK = b :=
  Nat.xor_cancel_right ESCAPE_MASK b

theorem hdlc_escape_ne_nil_of_cons (b : Nat) (rest : List Nat) :
    hdlc_escape (b :: rest) ≠ [] := by
  rw [hdlc_escape]
  split <;> simp

/-- Unescaping inverts escaping on any byte sequence, and reports the frame
body as well formed. -/
theorem hdlc_unescape_hdlc_escape (data : List Nat) :
    hdlc_unescape_checked (hdlc_escape data) = (data, true) := by
  induction data with
  | nil => rfl
  | cons b rest ih =>
    rw [hdlc_escape]
    split
    · rw [hdlc_unescape_checked]
      · simp [ih, xor_mask_cancel]
    · rename_i hb
      cases hr : hdlc_escape rest with
      | nil =>
        cases rest with
        | nil =>
          rw [hdlc_unescape_checked]
          rw [if_neg (fun h => absurd (Or.inr h) hb)]
        | cons c rest2 => exact absurd hr (hdlc_escape_ne_nil_of_cons c rest2)
      | cons e es =>
        rw [hdlc_unescape_checked]
        · rw [← hr, ih]
          simp only [Prod.mk.injEq, and_true]
          split
          · rename_i h
            exact absurd (Or.inr h) hb
          · rfl

/-- The body of an encapsulated frame (everything before the trailer) is
exactly the escaped data. -/
theorem hdlc_encapsulate_dropLast (data : List Nat) :
    (hdlc_encapsulate data).dropLast = hdlc_escape data := by
  rw [hdlc_encapsulate]
  exact List.dropLast_concat

/-- Strict decapsulation of an encapsulated frame recovers the framed data. -/
theorem hdlc_roundtrip (t : Nat) (payload : List Nat) :
    hdlc_decapsulate (hdlc_encapsulate (t :: payload)) true =
      HdlcDecodeResult.packet t payload := by
  rw [hdlc_decapsulate, hdlc_encapsulate_dropLast, hdlc_unescape_hdlc_escape]
  rfl

/-- One read attempt on the USB read endpoint, as observed by the loop body:
either `read(...)` returned a chunk of bytes (possibly empty, in which case
`assert data_read` fails), or it raised an exception of some kind (the kind
index is irrelevant to the handler, which catches every `Exception`). -/
inductive ReadResult where
  | chunk (data : List Nat)
  | readError (kind : Nat)
deriving DecidableEq, Repr

/-- The `raw_payload.endswith(self.TRAILER_CHAR)` test of the inner loop. -/
def ends_with_trailer (buf : List Nat) : Bool :=
  buf.getLast? == some TRAILER_CHAR

/-- Outcome of the inner buffer-accumulation loop of `read_loop`. -/
inductive AccumResult where
  | done (buf : List Nat) (rest : List ReadResult)
  | fatal
  | starved
deriving DecidableEq, Repr

/-- The inner loop of `read_loop` (usb_modem_pyusb.py lines 64-76): append
`read` results to the buffer until it ends with the trailer byte.  A raised
read exception, and equally an empty chunk (the failing `assert data_read`),
is caught by the bare `except Exception` and calls `exit()` — `fatal`.
`starved` marks the modelled read sequence running out while the buffer is
still incomplete (the real loop would block forever on `read`). -/
def accumulate : List Nat → List ReadResult → AccumResult
  | buf, [] =>
    if ends_with_trailer buf then AccumResult.done buf [] else AccumResult.starved
  | buf, r :: rest =>
    if ends_with_trailer buf then AccumResult.done buf (r :: rest)
    else
      match r with
      | ReadResult.readError _ => AccumResult.fatal
      | ReadResult.chunk d =>
        if d.isEmpty then AccumResult.fatal else accumulate (buf ++ d) rest

/-- Outcome of one iteration of the outer `while True` of `read_loop`:
`nextIter` carries the `received_first_packet` flag after the iteration, the
unconsumed reads, the `raise_on_invalid_frame` value that was passed to the
decode of this iteration, and the packet dispatched to the modules (if any).
`fatalRead` is the `exit()` of the read handler, `fatalTrailer` the `exit()`
taken when the buffer is exactly the single trailer byte. -/
inductive IterResult where
  | nextIter (flagAfter : Bool) (rest : List ReadResult) (strict : Bool)
      (dispatched : Option (Nat × List Nat))
  | fatalRead
  | fatalTrailer
  | starved
deriving DecidableEq, Repr

/-- One iteration of `read_loop` (usb_modem_pyusb.py lines 58-104), starting
from `received_first_packet = flag` with the pending reads `reads`:
accumulate a buffer ending with the trailer; `exit()` if it is exactly the
trailer byte; otherwise decapsulate with
`raise_on_invalid_frame = not received_first_packet`.  The `finally` block
sets `received_first_packet = True` on both the success path and the
`InvalidFrameError` path; the latter dispatches nothing and continues. -/
def read_loop_iter (flag : Bool) (reads : List ReadResult) : IterResult :=
  match accumulate [] reads with
  | AccumResult.starved => IterResult.starved
  | AccumResult.fatal => IterResult.fatalRead
  | AccumResult.done buf rest =>
    if buf = [TRAILER_CHAR] then IterResult.fatalTrailer
    else
      match hdlc_decapsulate buf (!flag) with
      | HdlcDecodeResult.invalidFrameError =>
        IterResult.nextIter true rest (!flag) none
      | HdlcDecodeResult.packet t p =>
        IterResult.nextIter true rest (!flag) (some (t, p))

/-- Per-iteration record of a `read_loop` run: the flag value after the
iteration, the strictness the decode of the iteration was invoked with, and
the packet dispatched (none on the `InvalidFrameError` path). -/
structure IterRecord where
  flagAfter : Bool
  strict : Bool
  dispatched : Option (Nat × List Nat)
deriving DecidableEq, Repr

/-- How a (fuel-bounded) run of `read_loop` ended. -/
inductive LoopEnd where
  | fatalRead
  | fatalTrailer
  | starved
  | fuelOut
deriving DecidableEq, Repr

/-- A fuel-bounded run of the outer loop of `read_loop`, returning the trace
of completed iterations together with the way the loop ended. -/
def read_loop_run : Nat → Bool → List ReadResult → List IterRecord × LoopEnd
  | 0, _, _ => ([], LoopEnd.fuelOut)
  | Nat.succ fuel, flag, reads =>
    match read_loop_iter flag reads with
    | IterResult.starved => ([], LoopEnd.starved)
    | IterResult.fatalRead => ([], LoopEnd.fatalRead)
    | IterResult.fatalTrailer => ([], LoopEnd.fatalTrailer)
    | IterResult.nextIter flagAfter rest strict d =>
      (IterRecord.mk flagAfter strict d :: (read_loop_run fuel flagAfter rest).1,
       (read_loop_run fuel flagAfter rest).2)

theorem read_loop_iter_nextIter (flag flagAfter strict : Bool)
    (reads rest : List ReadResult) (d : Option (Nat × List Nat))
    (h : read_loop_iter flag reads =
      IterResult.nextIter flagAfter rest strict d) :
    flagAfter = true ∧ strict = !flag := by
  rw [read_loop_iter] at h
  split at h <;> try exact absurd h (by simp)
  split at h <;> try exact absurd h (by simp)
  split at h <;> (cases h; exact ⟨rfl, rfl⟩)

theorem read_loop_run_flagAfter_all (fuel : Nat) (flag : Bool)
    (reads : List ReadResult) :
    ((read_loop_run fuel flag reads).1.all fun r => r.flagAfter) = true := by
  induction fuel generalizing flag reads with
  | zero => rfl
  | succ fuel ih =>
    rw [read_loop_run]
    split <;> try rfl
    rename_i flagAfter rest strict d heq
    obtain ⟨hfa, _⟩ := read_loop_iter_nextIter flag flagAfter strict reads rest d heq
    subst hfa
    simpa using ih true rest

theorem read_loop_run_strict_all (fuel : Nat) (reads : List ReadResult) :
    ((read_loop_run fuel true reads).1.all fun r => !r.strict) = true := by
  induction fuel generalizing reads with
  | zero => rfl
  | succ fuel ih =>
    rw [read_loop_run]
    split <;> try rfl
    rename_i flagAfter rest strict d heq
    obtain ⟨hfa, hs⟩ := read_loop_iter_nextIter true flagAfter strict reads rest d heq
    subst hfa
    subst hs
    simpa using ih rest

theorem read_loop_run_tail_strict (fuel : Nat) (flag : Bool)
    (reads : List ReadResult) :
    ((read_loop_run fuel flag reads).1.tail.all fun r => !r.strict) = true := by
  cases fuel with
  | zero => rfl
  | succ fuel =>
    rw [read_loop_run]
    split <;> try rfl
    rename_i flagAfter rest strict d heq
    obtain ⟨hfa, _⟩ := read_loop_iter_nextIter flag flagAfter strict reads rest d heq
    subst hfa
    simpa using read_loop_run_strict_all fuel rest

theorem hdlc_decapsulate_nonstrict (buf : List Nat) :
    hdlc_decapsulate buf false ≠ HdlcDecodeResult.invalidFrameError := by
  cases h : (hdlc_unescape_checked buf.dropLast).1 with
  | nil => simp [hdlc_decapsulate, h]
  | cons t rest => simp [hdlc_decapsulate, h]

/-- Result of one call to `write_endpoint.write`: success, or a raised
`USBError` (the contractual write-failure exception of the pyusb endpoint). -/
inductive WriteResult where
  | ok
  | usbError
deriving DecidableEq, Repr

/-- How a call to `send_request` returns to its caller. -/
inductive SendOutcome where
  | sent (frame : List Nat)
  | warned
deriving DecidableEq, Repr

/-- `send_request` (usb_modem_pyusb.py lines 47-56): encapsulate
`[packet_type] + packet_payload` and write it to the endpoint; a raised
`USBError` is caught and a warning about privileges or an unplugged device is
printed, after which the call returns normally. -/
def send_request (w : WriteResult) (packet_type : Nat) (packet_payload : List Nat) :
    SendOutcome :=
  let raw_payload := hdlc_encapsulate (packet_type :: packet_payload)
  match w with
  | WriteResult.ok => SendOutcome.sent raw_payload
  | WriteResult.usbError => SendOutcome.warned

/-- The not-found reasons a `PyusbDevInterface` can carry (enumerated in the
spec; main.py only truth-tests the field). -/
inductive NotFoundReason where
  | no_matching_interface
  | ambiguous
  | kernel_driver_active_no_chardev
  | explicit_target_absent
deriving DecidableEq, Repr

/-- The fields of a resolved `PyusbDevInterface` that main() inspects:
whether resolution failed, and the character-device path mounted for the
interface if a kernel driver exposes one (None otherwise). -/
structure PyusbDevInterface where
  not_found_reason : Option NotFoundReason
  chardev_if_mounted : Option String
deriving DecidableEq, Repr

/-- Python truthiness of the `chardev_if_mounted` field (None and the empty
string are falsy). -/
def chardev_truthy : Option String → Bool
  | none => false
  | some s => !s.isEmpty

/-- The `diag_input` value main() constructs for the USB-modem paths. -/
inductive DiagInput where
  | pyserial (path : String)
  | pyusb (dev : PyusbDevInterface)
  | adb_kept
  | error_exit
deriving DecidableEq, Repr

/-- The `--usb-modem` vid:pid / bus:addr branch of main() (main.py lines
123-132): a not-found reason exits with an error; otherwise a mounted
character device selects the pyserial connector, and only in its absence the
raw pyusb connector. -/
def select_usb_modem_backend (dev_intf : PyusbDevInterface) : DiagInput :=
  if dev_intf.not_found_reason.isSome then DiagInput.error_exit
  else if chardev_truthy dev_intf.chardev_if_mounted then
    DiagInput.pyserial (dev_intf.chardev_if_mounted.getD "")
  else
    DiagInput.pyusb dev_intf

/-- The `--adb` / `--adb-wsl2` replacement branch of main() (main.py lines
99-104 and 107-112): when the adb connector resolved a USB modem with no
not-found reason, the connector is replaced, preferring the pyserial
connector over the raw pyusb one exactly when a character device is
mounted; otherwise the adb connector is kept. -/
def select_backend_adb (usb_modem : Option PyusbDevInterface) : DiagInput :=
  match usb_modem with
  | none => DiagInput.adb_kept
  | some um =>
    if um.not_found_reason.isSome then DiagInput.adb_kept
    else if chardev_truthy um.chardev_if_mounted then
      DiagInput.pyserial (um.chardev_if_mounted.getD "")
    else
      DiagInput.pyusb um

/-- Result of the `is_kernel_driver_active` call made by the connector
constructor: the query returned a status, or it raised an exception. -/
inductive KernelDriverQuery where
  | ok (status : Bool)
  | raised
deriving DecidableEq, Repr

/-- The remediation message passed to `exit` by the constructor. -/
def kernel_driver_exit_message : String :=
  "[!] The USB modem device seems to be taken by a kernel driver, such as \"usbserial\" or \"hso\". Please pass directly a device name using an option like \"--usb-modem /dev/ttyUSB2\" or \"/dev/ttyHS0\" (on Linux) or \"COM0\" (on Windows) if it applies, or unmount the corresponding driver."

/-- How `UsbModemPyusbConnector.__init__` terminates. -/
inductive InitOutcome where
  | exitKernelDriver (msg : String)
  | constructed (received_first_packet : Bool)
deriving DecidableEq, Repr

/-- `UsbModemPyusbConnector.__init__` (usb_modem_pyusb.py lines 16-39):
query `is_kernel_driver_active`; if the query raises, the exception is
swallowed (`except Exception: pass`) and construction proceeds; if it
returns true, `exit` is called with the remediation message; otherwise
construction proceeds, setting `received_first_packet = False`.  No code
path claims the interface (the `set_configuration` call is commented out). -/
def usb_connector_construct (q : KernelDriverQuery) : InitOutcome :=
  match q with
  | KernelDriverQuery.raised => InitOutcome.constructed false
  | KernelDriverQuery.ok status =>
    if status then InitOutcome.exitKernelDriver kernel_driver_exit_message
    else InitOutcome.constructed false

/-- C1: On every run of the read loop the `received_first_packet` flag is set
on the first decode attempt, whether the attempt returns a packet or raises
`InvalidFrameError` (both are `nextIter` outcomes, and its `flagAfter` is
always true), once set it is never reset (every trace record has
`flagAfter = true`), and consequently every decode after the first attempt is
invoked with `raise_on_invalid_frame = false` (every trace record past the
first has `strict = false`). -/
theorem c1_recovery_flag_monotone (flag : Bool) (reads : List ReadResult)
    (fuel : Nat) :
    (∀ flagAfter rest strict d,
        read_loop_iter flag reads = IterResult.nextIter flagAfter rest strict d →
        flagAfter = true ∧ strict = !flag)
    ∧ ((read_loop_run fuel flag reads).1.all fun r => r.flagAfter) = true
    ∧ ((read_loop_run fuel true reads).1.all fun r => !r.strict) = true
    ∧ ((read_loop_run fuel flag reads).1.tail.all fun r => !r.strict) = true :=
  ⟨fun flagAfter rest strict d h =>
      read_loop_iter_nextIter flag flagAfter strict reads rest d h,
   read_loop_run_flagAfter_all fuel flag reads,
   read_loop_run_strict_all fuel reads,
   read_loop_run_tail_strict fuel flag reads⟩

theorem c1_witness :
    (true = true ∧ true = !false) ∧
    ((read_loop_run 2 false [ReadResult.chunk [1, 65, 126]]).1.all
      fun r => r.flagAfter) = true :=
  ⟨(c1_recovery_flag_monotone false [ReadResult.chunk [1, 65, 126]] 2).1
      true [] true (some (1, [65])) (by decide),
   (c1_recovery_flag_monotone false [ReadResult.chunk [1, 65, 126]] 2).2.1⟩

/-- C2: if the accumulated buffer is exactly the single trailer byte, the
iteration ends with the transport-unavailable `exit()` before any decode, and
the run terminates with an empty trace — nothing is dispatched. -/
theorem c2_trailer_only_fatal (flag : Bool) (reads rest : List ReadResult)
    (fuel : Nat)
    (h : accumulate [] reads = AccumResult.done [TRAILER_CHAR] rest) :
    read_loop_iter flag reads = IterResult.fatalTrailer ∧
    read_loop_run (fuel + 1) flag reads = ([], LoopEnd.fatalTrailer) := by
  have hiter : read_loop_iter flag reads = IterResult.fatalTrailer := by
    rw [read_loop_iter, h]
    simp
  exact ⟨hiter, by rw [read_loop_run, hiter]⟩

theorem c2_witness :
    accumulate [] [ReadResult.chunk [126]] = AccumResult.done [TRAILER_CHAR] [] ∧
    (read_loop_iter false [ReadResult.chunk [126]] = IterResult.fatalTrailer ∧
     read_loop_run 1 false [ReadResult.chunk [126]] = ([], LoopEnd.fatalTrailer)) :=
  ⟨by decide, c2_trailer_only_fatal false [ReadResult.chunk [126]] [] 0 (by decide)⟩

/-- C3: whenever the decode of an iteration raises `InvalidFrameError`, the
session was still awaiting its first frame (`flag = false`), the iteration
dispatches nothing, sets the flag to streaming, and the loop continues on the
remaining reads with a fresh (discarded) buffer. -/
theorem c3_invalid_frame_skip (flag : Bool) (reads rest : List ReadResult)
    (buf : List Nat) (fuel : Nat)
    (hacc : accumulate [] reads = AccumResult.done buf rest)
    (hne : buf ≠ [TRAILER_CHAR])
    (hinv : hdlc_decapsulate buf (!flag) = HdlcDecodeResult.invalidFrameError) :
    flag = false ∧
    read_loop_iter flag reads = IterResult.nextIter true rest true none ∧
    (read_loop_run (fuel + 1) flag reads).1 =
      IterRecord.mk true true none :: (read_loop_run fuel true rest).1 := by
  have hflag : flag = false := by
    cases flag
    · rfl
    · exact absurd hinv (by simpa using hdlc_decapsulate_nonstrict buf)
  subst hflag
  have hiter : read_loop_iter false reads = IterResult.nextIter true rest true none := by
    simp only [Bool.not_false] at hinv
    rw [read_loop_iter, hacc]
    simp [hne, hinv]
  exact ⟨rfl, hiter, by rw [read_loop_run, hiter]⟩

theorem c3_witness :
    (accumulate [] [ReadResult.chunk [125, 126]] = AccumResult.done [125, 126] [] ∧
     [125, 126] ≠ [TRAILER_CHAR] ∧
     hdlc_decapsulate [125, 126] (!false) = HdlcDecodeResult.invalidFrameError) ∧
    (false = false ∧
     read_loop_iter false [ReadResult.chunk [125, 126]] =
       IterResult.nextIter true [] true none ∧
     (read_loop_run 1 false [ReadResult.chunk [125, 126]]).1 =
       IterRecord.mk true true none :: (read_loop_run 0 true []).1) :=
  ⟨⟨by decide, by decide, by decide⟩,
   c3_invalid_frame_skip false [ReadResult.chunk [125, 126]] [] [125, 126] 0
     (by decide) (by decide) (by decide)⟩

/-- C4: every call to `send_request` returns normally — the write either
succeeds and sends the encapsulated frame, or raises `USBError`, which is
caught and turned into a printed warning; in particular a failing write
yields `warned`, never an escaping exception, so the session and its read
loop are unaffected. -/
theorem c4_write_failure_recovered (packet_type : Nat)
    (packet_payload : List Nat) :
    (∀ w, send_request w packet_type packet_payload = SendOutcome.warned ∨
       send_request w packet_type packet_payload =
         SendOutcome.sent (hdlc_encapsulate (packet_type :: packet_payload))) ∧
    send_request WriteResult.usbError packet_type packet_payload =
      SendOutcome.warned := by
  refine ⟨fun w => ?_, rfl⟩
  cases w
  · exact Or.inr rfl
  · exact Or.inl rfl

theorem c4_witness :
    send_request WriteResult.usbError 76 [1, 2] = SendOutcome.warned :=
  (c4_write_failure_recovered 76 [1, 2]).2

/-- C5: a read-endpoint failure of any exception kind during buffer
accumulation is fatal — `accumulate` maps a pending `readError` of any kind
to `fatal` whenever the buffer is still incomplete, the iteration becomes
`fatalRead`, and the run terminates with an empty trace, dispatching
nothing. -/
theorem c5_read_failure_fatal (flag : Bool) (kind : Nat) (buf : List Nat)
    (pending reads : List ReadResult) (fuel : Nat)
    (hbuf : ends_with_trailer buf = false)
    (hacc : accumulate [] reads = AccumResult.fatal) :
    accumulate buf (ReadResult.readError kind :: pending) = AccumResult.fatal ∧
    read_loop_iter flag reads = IterResult.fatalRead ∧
    read_loop_run (fuel + 1) flag reads = ([], LoopEnd.fatalRead) := by
  have hiter : read_loop_iter flag reads = IterResult.fatalRead := by
    rw [read_loop_iter, hacc]
  refine ⟨?_, hiter, by rw [read_loop_run, hiter]⟩
  rw [accumulate, hbuf]
  rfl

theorem c5_witness :
    (ends_with_trailer [] = false ∧
     accumulate [] [ReadResult.readError 3] = AccumResult.fatal) ∧
    (accumulate [] (ReadResult.readError 3 :: []) = AccumResult.fatal ∧
     read_loop_iter false [ReadResult.readError 3] = IterResult.fatalRead ∧
     read_loop_run 1 false [ReadResult.readError 3] = ([], LoopEnd.fatalRead)) :=
  ⟨⟨by decide, by decide⟩,
   c5_read_failure_fatal false 3 [] [] [ReadResult.readError 3] 0
     (by decide) (by decide)⟩

/-- C6: strict decode of the encapsulation of a type byte followed by a
payload containing neither the trailer byte nor the escape byte recovers
exactly that type and payload. -/
theorem c6_encode_decode_roundtrip (t : Nat) (P : List Nat)
    (hP : ∀ b ∈ P, b ≠ TRAILER_CHAR ∧ b ≠ ESCAPE_CHAR) :
    hdlc_decapsulate (hdlc_encapsulate (t :: P)) true =
      HdlcDecodeResult.packet t P :=
  hdlc_roundtrip t P

theorem c6_witness :
    (∀ b ∈ [65, 66], b ≠ TRAILER_CHAR ∧ b ≠ ESCAPE_CHAR) ∧
    hdlc_decapsulate (hdlc_encapsulate (2 :: [65, 66])) true =
      HdlcDecodeResult.packet 2 [65, 66] :=
  ⟨by decide, c6_encode_decode_roundtrip 2 [65, 66] (by decide)⟩

/-- C7: in both the explicit `--usb-modem` branch and the adb branches of
main(), a resolved interface with no not-found reason and a mounted
character device yields the pyserial (character-device) connector, and the
raw pyusb connector is selected only when no character device is mounted. -/
theorem c7_chardev_precedence (d : PyusbDevInterface) (path : String)
    (hres : d.not_found_reason = none)
    (hpath : d.chardev_if_mounted = some path)
    (hne : path.isEmpty = false) :
    select_usb_modem_backend d = DiagInput.pyserial path ∧
    select_backend_adb (some d) = DiagInput.pyserial path ∧
    (∀ d2 : PyusbDevInterface, d2.not_found_reason = none →
      select_usb_modem_backend d2 = DiagInput.pyusb d2 →
      chardev_truthy d2.chardev_if_mounted = false) ∧
    (∀ d2 : PyusbDevInterface, d2.not_found_reason = none →
      select_backend_adb (some d2) = DiagInput.pyusb d2 →
      chardev_truthy d2.chardev_if_mounted = false) := by
  refine ⟨?_, ?_, ?_, ?_⟩
  · simp [select_usb_modem_backend, hres, hpath, chardev_truthy, hne]
  · simp [select_backend_adb, hres, hpath, chardev_truthy, hne]
  · intro d2 h1 h2
    cases hcv : chardev_truthy d2.chardev_if_mounted
    · rfl
    · exfalso
      rw [select_usb_modem_backend, h1] at h2
      simp [hcv] at h2
  · intro d2 h1 h2
    cases hcv : chardev_truthy d2.chardev_if_mounted
    · rfl
    · exfalso
      rw [select_backend_adb] at h2
      simp [h1, hcv] at h2

theorem c7_witness :
    (PyusbDevInterface.mk none (some "/dev/ttyUSB2")).not_found_reason = none ∧
    select_usb_modem_backend (PyusbDevInterface.mk none (some "/dev/ttyUSB2")) =
      DiagInput.pyserial "/dev/ttyUSB2" :=
  ⟨rfl,
   (c7_chardev_precedence (PyusbDevInterface.mk none (some "/dev/ttyUSB2"))
      "/dev/ttyUSB2" rfl rfl rfl).1⟩

/-- C8: when the kernel-driver query succeeds and reports the interface as
claimed, construction exits immediately with the remediation message and
never reaches the constructed state. -/
theorem c8_kernel_driver_fail_fast :
    usb_connector_construct (KernelDriverQuery.ok true) =
      InitOutcome.exitKernelDriver kernel_driver_exit_message ∧
    ∀ b, usb_connector_construct (KernelDriverQuery.ok true) ≠
      InitOutcome.constructed b := by
  refine ⟨rfl, fun b => ?_⟩
  intro h
  simp [usb_connector_construct] at h

theorem c8_witness :
    usb_connector_construct (KernelDriverQuery.ok true) =
      InitOutcome.exitKernelDriver kernel_driver_exit_message ∧
    usb_connector_construct (KernelDriverQuery.ok true) ≠
      InitOutcome.constructed false :=
  ⟨c8_kernel_driver_fail_fast.1, c8_kernel_driver_fail_fast.2 false⟩

/-- C10: an exception raised by the kernel-driver query is swallowed and
construction proceeds normally, and the fail-fast exit is taken exactly when
the query succeeds returning true. -/
theorem c10_query_exception_swallowed :
    usb_connector_construct KernelDriverQuery.raised =
      InitOutcome.constructed false ∧
    ∀ q, (∃ m, usb_connector_construct q = InitOutcome.exitKernelDriver m) ↔
      q = KernelDriverQuery.ok true := by
  refine ⟨rfl, fun q => ?_⟩
  cases q with
  | ok s => cases s <;> simp [usb_connector_construct]
  | raised => simp [usb_connector_construct]

theorem c10_witness :
    usb_connector_construct KernelDriverQuery.raised =
      InitOutcome.constructed false ∧
    KernelDriverQuery.ok true = KernelDriverQuery.ok true :=
  ⟨c10_query_exception_swallowed.1,
   (c10_query_exception_swallowed.2 (KernelDriverQuery.ok true)).mp
     ⟨kernel_driver_exit_message, rfl⟩⟩

/-- C9: a successful read returning the empty byte sequence fails the
`assert data_read` inside the guarded block and is handled as a fatal read
failure — the accumulation becomes `fatal` instead of spinning, the
iteration is `fatalRead`, and the run terminates with an empty trace. -/
theorem c9_empty_read_fatal (flag : Bool) (buf : List Nat)
    (pending rest : List ReadResult) (fuel : Nat)
    (hbuf : ends_with_trailer buf = false) :
    accumulate buf (ReadResult.chunk [] :: pending) = AccumResult.fatal ∧
    read_loop_iter flag (ReadResult.chunk [] :: rest) = IterResult.fatalRead ∧
    read_loop_run (fuel + 1) flag (ReadResult.chunk [] :: rest) =
      ([], LoopEnd.fatalRead) := by
  have hacc : accumulate [] (ReadResult.chunk [] :: rest) = AccumResult.fatal := rfl
  have hiter : read_loop_iter flag (ReadResult.chunk [] :: rest) =
      IterResult.fatalRead := by
    rw [read_loop_iter, hacc]
  refine ⟨?_, hiter, by rw [read_loop_run, hiter]⟩
  rw [accumulate, hbuf]
  rfl

theorem c9_witness :
    ends_with_trailer [1] = false ∧
    (accumulate [1] (ReadResult.chunk [] :: []) = AccumResult.fatal ∧
     read_loop_iter false (ReadResult.chunk [] :: []) = IterResult.fatalRead ∧
     read_loop_run 1 false (ReadResult.chunk [] :: []) = ([], LoopEnd.fatalRead)) :=
  ⟨by decide, c9_empty_read_fatal false [1] [] [] 0 (by decide)⟩

end QCSuper
